import Mathlib

/-!
Shallow embedding of the GateKeeper check-in engine:
the JWT credential service (packages/jwt-core `src/index.ts`),
the scanner validation route (apps/api/src/routes/scanner.ts, POST /api/scanner/validate)
and the registration route (apps/api/src/routes/tickets.ts, POST /api/tickets/register).

The Prisma ticket store is modelled as a list of ticket rows; `findUnique` by a
unique column becomes a first-match search, and `update` keyed by `id` replaces
the first row with that id (and fails, as Prisma throws, when no row has the id).
Random values (fresh nonces, row ids, the current time) are nondeterministic
inputs and are passed as explicit parameters.
-/

deriving instance DecidableEq for Except

/-- Ticket status enum from the Prisma schema / shared types
(`TicketStatus` in packages/shared-types). -/
inductive TicketStatus where
  | REGISTERED
  | WAITLISTED
  | CHECKED_IN
  | CANCELLED
deriving DecidableEq

/-- Payload of a ticket JWT (`TicketPayload` in packages/jwt-core):
subject user id, event id, issued-at, and the anti-counterfeiting nonce.
No expiry claim exists. -/
structure TicketPayload where
  sub : String
  evt : String
  iat : Nat
  nonce : String
deriving DecidableEq

/-- A signed ticket credential. The RS256 signature is modelled symbolically:
`sigValid` records whether the signature verifies against the platform public
key (jwt.verify succeeds exactly on tokens signed with the matching private key;
any tampering with the payload invalidates the signature). -/
structure Token where
  payload : TicketPayload
  sigValid : Bool
deriving DecidableEq

/-- `JWTService.verifyTicketToken`: returns the decoded payload, or none when
signature verification throws (invalid signature, malformed token). -/
def verifyTicketToken (t : Token) : Option TicketPayload :=
  if t.sigValid then some t.payload else none

/-- `JWTService.generateTicketToken userId eventId`: builds the payload
`\x7bsub, evt, iat, nonce\x7d` and signs it with the private key (so the
signature verifies), returning the token together with the nonce.
The freshly drawn random nonce and the clock reading are explicit inputs. -/
def generateTicketToken (userId eventId : String) (iat : Nat) (freshNonce : String) :
    Token × String :=
  (⟨⟨userId, eventId, iat, freshNonce⟩, true⟩, freshNonce)

/-- One row of the `Ticket` table (fields of the shared `Ticket` type that the
engine reads or writes): id, owner, event, status, current nonce, stored signed
JWT, and check-in time. `nonce`, `jwtToken`, `checkInTime` are nullable. -/
structure Ticket where
  id : String
  userId : String
  eventId : String
  status : TicketStatus
  nonce : Option String
  jwtToken : Option Token
  checkInTime : Option Nat
deriving DecidableEq

/-- The durable ticket store (the nonce ledger): the rows of the Ticket table. -/
abbrev Ledger := List Ticket

/-- `prisma.ticket.findUnique(\x7bwhere: \x7bnonce\x7d\x7d)`:
look a ticket up by its (unique) nonce column. -/
def findByNonce (db : Ledger) (n : String) : Option Ticket :=
  List.find? (fun t => decide (t.nonce = some n)) db

/-- Lookup by primary key `id`. -/
def findById (db : Ledger) (i : String) : Option Ticket :=
  List.find? (fun t => decide (t.id = i)) db

/-- `prisma.ticket.update(\x7bwhere: \x7bid\x7d, data\x7d)`:
replace the row with the given id by applying `f`, returning the updated row and
the new table. Returns none (Prisma throws) when no row has the id. The update
is unconditional apart from the id: no other column is checked. -/
def updateById (db : Ledger) (i : String) (f : Ticket → Ticket) :
    Option (Ticket × Ledger) :=
  match db with
  | [] => none
  | t :: rest =>
    if t.id = i then some (f t, f t :: rest)
    else
      match updateById rest i f with
      | none => none
      | some (u, rest2) => some (u, t :: rest2)

/-- The `data` block of the scanner's step-6 update: set status to CHECKED_IN,
stamp checkInTime with the current time, and rotate the nonce to the freshly
generated one. No other field appears in the data block. -/
def checkInData (now : Nat) (newNonce : String) (t : Ticket) : Ticket :=
  { t with status := .CHECKED_IN, checkInTime := some now, nonce := some newNonce }

/-- Color of the scanner feedback (`ValidationResult.color`). -/
inductive Color where
  | green
  | yellow
  | red
deriving DecidableEq

/-- The externally observable response of POST /api/scanner/validate:
HTTP status plus the `ValidationResult` body
(valid flag, color, message, reason, optional ticket). -/
structure ValidationResult where
  httpStatus : Nat
  valid : Bool
  color : Color
  message : String
  reason : String
  ticket : Option Ticket
deriving DecidableEq

/-- Response for a missing token or eventId in the request body (HTTP 400). -/
def missingFieldsResp : ValidationResult :=
  ⟨400, false, .red, "Missing token or eventId", "Invalid request", none⟩

/-- Response when JWT signature verification fails (step 1). -/
def sigFailResp : ValidationResult :=
  ⟨200, false, .red, "Invalid or counterfeit ticket",
    "JWT signature verification failed", none⟩

/-- Response when the credential's event does not match the scanned event (step 2). -/
def eventMismatchResp : ValidationResult :=
  ⟨200, false, .red, "Ticket is for a different event", "Event ID mismatch", none⟩

/-- Response when the embedded nonce resolves to no ticket row (step 3). -/
def notFoundResp : ValidationResult :=
  ⟨200, false, .red, "Ticket not found or counterfeit",
    "Nonce not found in database", none⟩

/-- `checkInTime?.toLocaleTimeString()` on a nullable time. -/
def timeText : Option Nat → String
  | some n => toString n
  | none => "undefined"

/-- Response when the ticket is already CHECKED_IN (step 4, yellow duplicate). -/
def dupResp (t : Ticket) : ValidationResult :=
  ⟨200, false, .yellow, "Already checked in at " ++ timeText t.checkInTime,
    "Duplicate check-in attempt", some t⟩

/-- String name of a status, as interpolated into responses. -/
def statusText : TicketStatus → String
  | .REGISTERED => "REGISTERED"
  | .WAITLISTED => "WAITLISTED"
  | .CHECKED_IN => "CHECKED_IN"
  | .CANCELLED => "CANCELLED"

/-- Response when the status is neither CHECKED_IN nor REGISTERED (step 5). -/
def invalidStatusResp (t : Ticket) : ValidationResult :=
  ⟨200, false, .red, "Ticket status: " ++ statusText t.status,
    "Invalid status: " ++ statusText t.status, none⟩

/-- Green success response with the updated ticket (step 6 succeeded). -/
def successResp (u : Ticket) (fullName : String) : ValidationResult :=
  ⟨200, true, .green, "Welcome, " ++ fullName ++ "!",
    "Successfully checked in", some u⟩

/-- Response produced by the catch block (Prisma threw): HTTP 500. -/
def internalErrorResp : ValidationResult :=
  ⟨500, false, .red, "System error during validation", "Internal server error", none⟩

/-- A database access performed by the validate handler: the step-3 read keyed
by nonce, or the step-6 write keyed by ticket id. -/
inductive DBOp where
  | readByNonce (n : String)
  | writeById (i : String)
deriving DecidableEq

/-- Steps 1-5 of POST /api/scanner/validate, exactly in source order:
request-field check, JWT signature verification, event match, nonce lookup,
already-checked-in check, REGISTERED check. Returns the early-exit response or
the ticket snapshot that step 6 will transition, together with the list of
database operations performed so far. -/
def runPhase1 (db : Ledger) (tok : Option Token) (evId : Option String) :
    Except ValidationResult Ticket × List DBOp :=
  match tok, evId with
  | none, _ => (.error missingFieldsResp, [])
  | some _, none => (.error missingFieldsResp, [])
  | some token, some eventId =>
    match verifyTicketToken token with
    | none => (.error sigFailResp, [])
    | some payload =>
      if payload.evt ≠ eventId then (.error eventMismatchResp, [])
      else
        match findByNonce db payload.nonce with
        | none => (.error notFoundResp, [.readByNonce payload.nonce])
        | some ticket =>
          if ticket.status = .CHECKED_IN then
            (.error (dupResp ticket), [.readByNonce payload.nonce])
          else if ticket.status ≠ .REGISTERED then
            (.error (invalidStatusResp ticket), [.readByNonce payload.nonce])
          else (.ok ticket, [.readByNonce payload.nonce])

/-- Step 6 of POST /api/scanner/validate: `prisma.ticket.update` keyed by the
snapshot's id with data `checkInData` (the handler's `newNonce` comes from
`jwtService.rotateNonce()` and `now` from `new Date()`; both are passed in).
On success, the green response carries the updated ticket and greets the
owner by full name; if Prisma throws (row gone), the catch block answers 500. -/
def runPhase2 (db : Ledger) (t : Ticket) (now : Nat) (newNonce : String)
    (fullNameOf : String → String) : ValidationResult × Ledger :=
  match updateById db t.id (checkInData now newNonce) with
  | none => (internalErrorResp, db)
  | some (u, db2) => (successResp u (fullNameOf u.userId), db2)

/-- Outcome of one full run of the validate handler: the HTTP response, the
resulting table state, and the database operations performed. -/
structure RunOut where
  resp : ValidationResult
  db : Ledger
  ops : List DBOp
deriving DecidableEq

/-- The whole POST /api/scanner/validate handler, run atomically (no
interference between its read and its write): phase 1 then, if it reaches
step 6, phase 2. -/
def validateRun (db : Ledger) (tok : Option Token) (evId : Option String)
    (now : Nat) (newNonce : String) (fullNameOf : String → String) : RunOut :=
  match runPhase1 db tok evId with
  | (.error r, ops) => ⟨r, db, ops⟩
  | (.ok t, ops) =>
    ⟨(runPhase2 db t now newNonce fullNameOf).1,
      (runPhase2 db t now newNonce fullNameOf).2, ops ++ [.writeById t.id]⟩

/-- One row of the `Event` table, restricted to the fields the registration
handler reads: id, price, capacity, privacy flag and invite token. -/
structure Event where
  id : String
  price : ℚ
  capacity : Nat
  isPrivate : Bool
  inviteToken : Option String
deriving DecidableEq

/-- `prisma.event.findUnique(\x7bwhere: \x7bid\x7d\x7d)`. -/
def findEvent (events : List Event) (i : String) : Option Event :=
  List.find? (fun e => decide (e.id = i)) events

/-- `prisma.ticket.findUnique(\x7bwhere: \x7buserId_eventId\x7d\x7d)`:
duplicate-registration lookup on the composite unique key. -/
def findTicketByUserEvent (db : Ledger) (userId eventId : String) : Option Ticket :=
  List.find? (fun t => decide (t.userId = userId ∧ t.eventId = eventId)) db

/-- `prisma.ticket.count` of REGISTERED or CHECKED_IN tickets of the event
(the capacity check of the registration handler). -/
def countActive (db : Ledger) (eventId : String) : Nat :=
  (List.filter
    (fun t => decide (t.eventId = eventId ∧
      (t.status = TicketStatus.REGISTERED ∨ t.status = TicketStatus.CHECKED_IN)))
    db).length

/-- Observable outcome of POST /api/tickets/register. -/
inductive RegisterResult where
  | eventNotFound
  | invalidInvite
  | alreadyRegistered (t : Ticket)
  | paid (t : Ticket) (amount : ℚ)
  | free (t : Ticket)
deriving DecidableEq

/-- POST /api/tickets/register: event lookup, private-event invite check,
duplicate-registration check, capacity count, then the paid/free branch.
The paid branch creates the ticket with the literal status REGISTERED and with
no jwtToken and no nonce; the free branch creates it with the capacity-derived
status and a freshly issued credential. The generated row id, the clock and the
random nonce are explicit inputs. Returns the outcome and the new table. -/
def register (events : List Event) (db : Ledger) (userId eventId : String)
    (inviteTok : Option String) (newId : String) (iat : Nat) (freshNonce : String) :
    RegisterResult × Ledger :=
  match findEvent events eventId with
  | none => (.eventNotFound, db)
  | some ev =>
    if ev.isPrivate = true ∧ ev.inviteToken ≠ inviteTok then (.invalidInvite, db)
    else
      match findTicketByUserEvent db userId eventId with
      | some t0 => (.alreadyRegistered t0, db)
      | none =>
        let ticketCount := countActive db eventId
        let status : TicketStatus :=
          if ticketCount ≥ ev.capacity then .WAITLISTED else .REGISTERED
        if 0 < ev.price then
          let t : Ticket := ⟨newId, userId, eventId, .REGISTERED, none, none, none⟩
          (.paid t ev.price, db ++ [t])
        else
          let issued := generateTicketToken userId eventId iat freshNonce
          let t : Ticket :=
            ⟨newId, userId, eventId, status, some issued.2, some issued.1, none⟩
          (.free t, db ++ [t])

/-!
Helper lemmas about the store operations, shared by the claim theorems.
-/

/-- A ticket found by nonce carries that nonce. -/
lemma findByNonce_nonce {db : Ledger} {n : String} {t : Ticket}
    (h : findByNonce db n = some t) : t.nonce = some n := by
  have h2 := List.find?_some h
  exact of_decide_eq_true h2

/-- When a row with the given id exists, `updateById` succeeds, replaces that
row by its image under `f`, keeps every row with a different id, and the
updated row is found again by id. -/
lemma updateById_of_findById {db : Ledger} {i : String} {t : Ticket}
    (f : Ticket → Ticket) (h : findById db i = some t) (hid : (f t).id = i) :
    ∃ db2, updateById db i f = some (f t, db2) ∧
      findById db2 i = some (f t) ∧ ∀ s ∈ db, s.id ≠ i → s ∈ db2 := by
  induction db with
  | nil => simp [findById] at h
  | cons t0 rest ih =>
    by_cases h0 : t0.id = i
    · have ht : t = t0 := by
        unfold findById at h
        rw [List.find?_cons_of_pos _ (by simp [h0])] at h
        exact (Option.some_inj.mp h).symm
      subst ht
      refine ⟨f t :: rest, ?_, ?_, ?_⟩
      · simp [updateById, h0]
      · unfold findById
        rw [List.find?_cons_of_pos _ (by simp [hid])]
      · intro s hs hne
        rcases List.mem_cons.mp hs with h1 | h1
        · exact absurd (h1 ▸ h0) hne
        · exact List.mem_cons_of_mem _ h1
    · have h' : findById rest i = some t := by
        unfold findById at h
        rwa [List.find?_cons_of_neg _ (by simp [h0])] at h
      obtain ⟨db2, hu, hf, hm⟩ := ih h'
      refine ⟨t0 :: db2, ?_, ?_, ?_⟩
      · simp [updateById, h0, hu]
      · unfold findById at hf ⊢
        rw [List.find?_cons_of_neg _ (by simp [h0])]
        exact hf
      · intro s hs hne
        rcases List.mem_cons.mp hs with h1 | h1
        · exact h1 ▸ List.mem_cons_self _ _
        · exact List.mem_cons_of_mem _ (hm s h1 hne)

/-- Reduction of the whole handler on the success path: valid signature,
matching event, nonce resolving to a REGISTERED ticket that is found by its id.
The run answers with the green response carrying the transitioned ticket, the
store keeps all other rows, and the transitioned row is found by id. -/
lemma validateRun_success (db : Ledger) (tok : Token) (e : String)
    (p : TicketPayload) (t : Ticket) (now : Nat) (nn : String)
    (names : String → String)
    (h1 : verifyTicketToken tok = some p) (h2 : p.evt = e)
    (h3 : findByNonce db p.nonce = some t) (h4 : t.status = .REGISTERED)
    (h5 : findById db t.id = some t) :
    ∃ db2, validateRun db (some tok) (some e) now nn names =
        ⟨successResp (checkInData now nn t) (names t.userId), db2,
          [.readByNonce p.nonce, .writeById t.id]⟩ ∧
      findById db2 t.id = some (checkInData now nn t) ∧
      ∀ s ∈ db, s.id ≠ t.id → s ∈ db2 := by
  obtain ⟨db2, hu, hf, hm⟩ :=
    updateById_of_findById (checkInData now nn) h5 (by simp [checkInData])
  refine ⟨db2, ?_, hf, hm⟩
  simp [validateRun, runPhase1, runPhase2, h1, h2, h3, h4, hu, checkInData]

/-!
A concrete scenario used by several theorems: one ticket, registered for event
e1 with live nonce n0, whose stored credential embeds that nonce.
-/

def demoToken : Token := ⟨⟨"u1", "e1", 0, "n0"⟩, true⟩

def demoTicket : Ticket := ⟨"t1", "u1", "e1", .REGISTERED, some "n0", some demoToken, none⟩

def demoDB : Ledger := [demoTicket]

def demoNames : String → String := fun _ => "Alice"

/-- Claim C1: the step-6 write is claimed to succeed only if the record's
status is still REGISTERED at the moment of the write, with the store rejecting
the write otherwise. The code's write (`prisma.ticket.update` keyed by id only)
has no such precondition: here two invocations of validate interleave, both
read the ticket as REGISTERED, and after the winner's write has set the status
to CHECKED_IN, the loser's write still succeeds and reports Accept — the
REGISTERED-to-CHECKED_IN transition is performed twice. -/
theorem checkin_write_not_conditional :
    runPhase1 demoDB (some demoToken) (some "e1") =
      (.ok demoTicket, [.readByNonce "n0"]) ∧
    (findById (runPhase2 demoDB demoTicket 100 "n1" demoNames).2 "t1").map
      Ticket.status = some .CHECKED_IN ∧
    (updateById (runPhase2 demoDB demoTicket 100 "n1" demoNames).2 "t1"
      (checkInData 200 "n2")).isSome = true ∧
    (runPhase2 (runPhase2 demoDB demoTicket 100 "n1" demoNames).2 demoTicket
      200 "n2" demoNames).1.valid = true := by decide

/-- Claim C2: replaying the exact same credential after a first Accept is
claimed to yield the duplicate soft-reject. In the code the first success
rotates the nonce, so the replayed credential's nonce no longer resolves:
the second call answers the red hard-reject "Nonce not found in database",
not the yellow duplicate. -/
theorem replay_after_accept_not_found :
    (validateRun demoDB (some demoToken) (some "e1") 100 "n1" demoNames).resp.valid = true ∧
    (validateRun (validateRun demoDB (some demoToken) (some "e1") 100 "n1" demoNames).db
      (some demoToken) (some "e1") 200 "n2" demoNames).resp = notFoundResp ∧
    notFoundResp.valid = false ∧ notFoundResp.color = .red := by decide

/-- Claim C3: N concurrent validate calls with the identical credential are
claimed to produce exactly one Accept and N-1 duplicates. With N = 2 and the
interleaving in which both calls perform their step-3 read before either
performs its step-6 write, both calls return the green Accept. -/
theorem race_two_accepts :
    runPhase1 demoDB (some demoToken) (some "e1") =
      (.ok demoTicket, [.readByNonce "n0"]) ∧
    (runPhase2 demoDB demoTicket 100 "n1" demoNames).1.valid = true ∧
    (runPhase2 demoDB demoTicket 100 "n1" demoNames).1.color = .green ∧
    (runPhase2 (runPhase2 demoDB demoTicket 100 "n1" demoNames).2 demoTicket
      200 "n2" demoNames).1.valid = true ∧
    (runPhase2 (runPhase2 demoDB demoTicket 100 "n1" demoNames).2 demoTicket
      200 "n2" demoNames).1.color = .green := by decide

/-- Claim C4 counterexample: an invalid-signature call and an unknown-nonce
call are both hard-rejects (valid false, red), yet their responses differ —
in particular the reason field names the failed check — so the two causes are
externally distinguishable beyond the coarse classification. -/
theorem hard_reject_responses_distinguishable :
    (validateRun [] (some ⟨⟨"u1", "e1", 0, "n0"⟩, false⟩) (some "e1") 0 "z"
      demoNames).resp.valid = false ∧
    (validateRun [] (some ⟨⟨"u1", "e1", 0, "n0"⟩, false⟩) (some "e1") 0 "z"
      demoNames).resp.color = .red ∧
    (validateRun [] (some ⟨⟨"u1", "e1", 0, "n0"⟩, true⟩) (some "e1") 0 "z"
      demoNames).resp.valid = false ∧
    (validateRun [] (some ⟨⟨"u1", "e1", 0, "n0"⟩, true⟩) (some "e1") 0 "z"
      demoNames).resp.color = .red ∧
    (validateRun [] (some ⟨⟨"u1", "e1", 0, "n0"⟩, false⟩) (some "e1") 0 "z"
      demoNames).resp ≠
      (validateRun [] (some ⟨⟨"u1", "e1", 0, "n0"⟩, true⟩) (some "e1") 0 "z"
        demoNames).resp ∧
    (validateRun [] (some ⟨⟨"u1", "e1", 0, "n0"⟩, false⟩) (some "e1") 0 "z"
      demoNames).resp.reason ≠
      (validateRun [] (some ⟨⟨"u1", "e1", 0, "n0"⟩, true⟩) (some "e1") 0 "z"
        demoNames).resp.reason := by decide

/-- Claim C4 (amended): every invalid-signature call and every unknown-nonce
call agree in the coarse classification (HTTP status, valid flag, color, no
ticket), but their message and reason fields are distinct constants that
identify which check failed, so the responses are distinguishable. -/
theorem hard_reject_coarse_agree_reason_differs :
    (∀ (db : Ledger) (tok : Token) (e : String) (now : Nat) (nn : String)
        (names : String → String), verifyTicketToken tok = none →
      (validateRun db (some tok) (some e) now nn names).resp = sigFailResp) ∧
    (∀ (db : Ledger) (tok : Token) (e : String) (p : TicketPayload) (now : Nat)
        (nn : String) (names : String → String),
      verifyTicketToken tok = some p → p.evt = e → findByNonce db p.nonce = none →
      (validateRun db (some tok) (some e) now nn names).resp = notFoundResp) ∧
    (sigFailResp.httpStatus = notFoundResp.httpStatus ∧
      sigFailResp.valid = notFoundResp.valid ∧
      sigFailResp.color = notFoundResp.color ∧
      sigFailResp.ticket = notFoundResp.ticket) ∧
    (sigFailResp.message ≠ notFoundResp.message ∧
      sigFailResp.reason ≠ notFoundResp.reason) := by
  refine ⟨?_, ?_, by decide, by decide⟩
  · intro db tok e now nn names h
    simp [validateRun, runPhase1, h]
  · intro db tok e p now nn names h1 h2 h3
    simp [validateRun, runPhase1, h1, h2, h3]

/-- Witness for the amended claim C4 at a concrete invalid-signature input. -/
theorem hard_reject_coarse_agree_reason_differs_witness :
    (validateRun [] (some ⟨⟨"u1", "e1", 0, "n0"⟩, false⟩) (some "e1") 0 "z"
      demoNames).resp = sigFailResp :=
  hard_reject_coarse_agree_reason_differs.1 [] ⟨⟨"u1", "e1", 0, "n0"⟩, false⟩
    "e1" 0 "z" demoNames (by decide)

/-- Claim C5 counterexample: a successful validate call whose Accept response
does contain the freshly generated nonce n1 (the response carries the full
updated record, whose nonce column has just been rotated to n1). -/
theorem accept_contains_new_nonce :
    (validateRun demoDB (some demoToken) (some "e1") 100 "n1" demoNames).resp.valid = true ∧
    ((validateRun demoDB (some demoToken) (some "e1") 100 "n1" demoNames).resp.ticket).map
      Ticket.nonce = some (some "n1") := by decide

/-- Claim C5 (amended): the Accept response embeds the full updated record,
including the freshly generated nonce in its nonce field; however no new
signed credential is issued — the stored jwtToken is returned unchanged. -/
theorem accept_response_carries_rotated_nonce
    (db : Ledger) (tok : Token) (e : String) (p : TicketPayload) (t : Ticket)
    (now : Nat) (nn : String) (names : String → String)
    (h1 : verifyTicketToken tok = some p) (h2 : p.evt = e)
    (h3 : findByNonce db p.nonce = some t) (h4 : t.status = .REGISTERED)
    (h5 : findById db t.id = some t) :
    (validateRun db (some tok) (some e) now nn names).resp.ticket =
      some (checkInData now nn t) ∧
    (checkInData now nn t).nonce = some nn ∧
    (checkInData now nn t).jwtToken = t.jwtToken := by
  obtain ⟨db2, he, hf, hm⟩ := validateRun_success db tok e p t now nn names h1 h2 h3 h4 h5
  rw [he]
  exact ⟨rfl, rfl, rfl⟩

/-- Witness for the amended claim C5 at a concrete successful check-in. -/
theorem accept_response_carries_rotated_nonce_witness :
    (validateRun demoDB (some demoToken) (some "e1") 100 "n1" demoNames).resp.ticket =
      some (checkInData 100 "n1" demoTicket) :=
  (accept_response_carries_rotated_nonce demoDB demoToken "e1" demoToken.payload
    demoTicket 100 "n1" demoNames (by decide) (by decide) (by decide) (by decide)
    (by decide)).1

/-- Claim C6: a credential issued for (subject U, audience E) embedding nonce n,
where some REGISTERED record holds n as its current nonce, validates against
audience E with the green Accept — for every issuance time iat and every
validation time, since the credential carries no expiry claim. -/
theorem validate_roundtrip_accept
    (db : Ledger) (U E : String) (iat : Nat) (n : String) (t : Ticket)
    (now : Nat) (nn : String) (names : String → String)
    (h1 : findByNonce db n = some t) (h2 : t.status = .REGISTERED)
    (h3 : findById db t.id = some t) :
    (validateRun db (some (generateTicketToken U E iat n).1) (some E) now nn
      names).resp.valid = true ∧
    (validateRun db (some (generateTicketToken U E iat n).1) (some E) now nn
      names).resp.color = .green := by
  obtain ⟨db2, he, hf, hm⟩ :=
    validateRun_success db (generateTicketToken U E iat n).1 E
      ⟨U, E, iat, n⟩ t now nn names rfl rfl h1 h2 h3
  rw [he]
  exact ⟨rfl, rfl⟩

/-- Witness for claim C6 at a concrete issued credential and ledger. -/
theorem validate_roundtrip_accept_witness :
    (validateRun demoDB (some (generateTicketToken "u1" "e1" 0 "n0").1) (some "e1")
      100 "n1" demoNames).resp.valid = true :=
  (validate_roundtrip_accept demoDB "u1" "e1" 0 "n0" demoTicket 100 "n1" demoNames
    (by decide) (by decide) (by decide)).1

/-- Claim C7: the pipeline checks run in the fixed order signature, audience,
existence, status, atomic transition, short-circuiting on the first failure.
In particular a failed signature check answers the hard-reject with no database
access at all and the store untouched; an audience mismatch likewise precedes
any database access; the nonce lookup is the only read; and only the
REGISTERED path reaches the write. -/
theorem validate_order_shortcircuit :
    (∀ (db : Ledger) (tok : Token) (e : String) (now : Nat) (nn : String)
        (names : String → String), verifyTicketToken tok = none →
      validateRun db (some tok) (some e) now nn names = ⟨sigFailResp, db, []⟩) ∧
    (∀ (db : Ledger) (tok : Token) (e : String) (p : TicketPayload) (now : Nat)
        (nn : String) (names : String → String),
      verifyTicketToken tok = some p → p.evt ≠ e →
      validateRun db (some tok) (some e) now nn names = ⟨eventMismatchResp, db, []⟩) ∧
    (∀ (db : Ledger) (tok : Token) (e : String) (p : TicketPayload) (now : Nat)
        (nn : String) (names : String → String),
      verifyTicketToken tok = some p → p.evt = e → findByNonce db p.nonce = none →
      validateRun db (some tok) (some e) now nn names =
        ⟨notFoundResp, db, [.readByNonce p.nonce]⟩) ∧
    (∀ (db : Ledger) (tok : Token) (e : String) (p : TicketPayload) (t : Ticket)
        (now : Nat) (nn : String) (names : String → String),
      verifyTicketToken tok = some p → p.evt = e → findByNonce db p.nonce = some t →
      t.status = .CHECKED_IN →
      validateRun db (some tok) (some e) now nn names =
        ⟨dupResp t, db, [.readByNonce p.nonce]⟩) ∧
    (∀ (db : Ledger) (tok : Token) (e : String) (p : TicketPayload) (t : Ticket)
        (now : Nat) (nn : String) (names : String → String),
      verifyTicketToken tok = some p → p.evt = e → findByNonce db p.nonce = some t →
      t.status ≠ .CHECKED_IN → t.status ≠ .REGISTERED →
      validateRun db (some tok) (some e) now nn names =
        ⟨invalidStatusResp t, db, [.readByNonce p.nonce]⟩) ∧
    (∀ (db : Ledger) (tok : Token) (e : String) (p : TicketPayload) (t : Ticket)
        (now : Nat) (nn : String) (names : String → String),
      verifyTicketToken tok = some p → p.evt = e → findByNonce db p.nonce = some t →
      t.status = .REGISTERED →
      (validateRun db (some tok) (some e) now nn names).ops =
        [.readByNonce p.nonce, .writeById t.id]) := by
  refine ⟨?_, ?_, ?_, ?_, ?_, ?_⟩
  · intro db tok e now nn names h
    simp [validateRun, runPhase1, h]
  · intro db tok e p now nn names h1 h2
    simp [validateRun, runPhase1, h1, h2]
  · intro db tok e p now nn names h1 h2 h3
    simp [validateRun, runPhase1, h1, h2, h3]
  · intro db tok e p t now nn names h1 h2 h3 h4
    simp [validateRun, runPhase1, h1, h2, h3, h4]
  · intro db tok e p t now nn names h1 h2 h3 h4 h5
    simp [validateRun, runPhase1, h1, h2, h3, h4, h5]
  · intro db tok e p t now nn names h1 h2 h3 h4
    simp [validateRun, runPhase1, runPhase2, h1, h2, h3, h4]

/-- Witness for claim C7 at a concrete invalid-signature input: hard-reject,
store untouched, empty database-operation trace. -/
theorem validate_order_shortcircuit_witness :
    validateRun [] (some ⟨⟨"u1", "e1", 0, "n0"⟩, false⟩) (some "e1") 0 "z"
      demoNames = ⟨sigFailResp, [], []⟩ :=
  validate_order_shortcircuit.1 [] ⟨⟨"u1", "e1", 0, "n0"⟩, false⟩ "e1" 0 "z"
    demoNames (by decide)

/-- Claim C8: a credential embedding audience E1, validated against a different
audience E2, answers the hard-reject even with a valid signature, and the store
is returned unchanged — every record keeps its status, nonce and checkInTime. -/
theorem wrong_audience_hard_reject_db_unchanged
    (db : Ledger) (tok : Token) (p : TicketPayload) (E1 E2 : String)
    (now : Nat) (nn : String) (names : String → String)
    (h1 : verifyTicketToken tok = some p) (h2 : p.evt = E1) (h3 : E1 ≠ E2) :
    validateRun db (some tok) (some E2) now nn names = ⟨eventMismatchResp, db, []⟩ ∧
    eventMismatchResp.valid = false ∧ eventMismatchResp.color = .red := by
  subst h2
  refine ⟨?_, rfl, rfl⟩
  simp [validateRun, runPhase1, h1, h3]

/-- Witness for claim C8 at a concrete wrong-event scan. -/
theorem wrong_audience_hard_reject_db_unchanged_witness :
    validateRun demoDB (some demoToken) (some "e2") 0 "z" demoNames =
      ⟨eventMismatchResp, demoDB, []⟩ :=
  (wrong_audience_hard_reject_db_unchanged demoDB demoToken demoToken.payload
    "e1" "e2" 0 "z" demoNames (by decide) (by decide) (by decide)).1

/-- Claim C9: a successful validate mutates only the status, checkInTime and
nonce columns of the record: id, userId, eventId and the stored jwtToken are
unchanged, every other row is kept, and — whenever the rotated nonce differs
from the one embedded in the stored credential — the stored jwtToken no longer
matches the record's current nonce. -/
theorem success_frame_only_status_time_nonce
    (db : Ledger) (tok : Token) (e : String) (p : TicketPayload) (t : Ticket)
    (now : Nat) (nn : String) (names : String → String)
    (h1 : verifyTicketToken tok = some p) (h2 : p.evt = e)
    (h3 : findByNonce db p.nonce = some t) (h4 : t.status = .REGISTERED)
    (h5 : findById db t.id = some t) :
    (validateRun db (some tok) (some e) now nn names).resp =
      successResp (checkInData now nn t) (names t.userId) ∧
    (checkInData now nn t).id = t.id ∧
    (checkInData now nn t).userId = t.userId ∧
    (checkInData now nn t).eventId = t.eventId ∧
    (checkInData now nn t).jwtToken = t.jwtToken ∧
    (checkInData now nn t).status = .CHECKED_IN ∧
    (checkInData now nn t).checkInTime = some now ∧
    (checkInData now nn t).nonce = some nn ∧
    findById (validateRun db (some tok) (some e) now nn names).db t.id =
      some (checkInData now nn t) ∧
    (∀ s ∈ db, s.id ≠ t.id → s ∈ (validateRun db (some tok) (some e) now nn names).db) ∧
    (∀ tk, t.jwtToken = some tk → tk.payload.nonce ≠ nn →
      Option.map (fun x => x.payload.nonce) (checkInData now nn t).jwtToken ≠
        (checkInData now nn t).nonce) := by
  obtain ⟨db2, he, hf, hm⟩ := validateRun_success db tok e p t now nn names h1 h2 h3 h4 h5
  rw [he]
  refine ⟨rfl, rfl, rfl, rfl, rfl, rfl, rfl, rfl, hf, hm, ?_⟩
  intro tk htk hne
  simp [checkInData, htk]
  exact hne

/-- Witness for claim C9 at a concrete successful check-in. -/
theorem success_frame_only_status_time_nonce_witness :
    (validateRun demoDB (some demoToken) (some "e1") 100 "n1" demoNames).resp =
      successResp (checkInData 100 "n1" demoTicket) (demoNames demoTicket.userId) :=
  (success_frame_only_status_time_nonce demoDB demoToken "e1" demoToken.payload
    demoTicket 100 "n1" demoNames (by decide) (by decide) (by decide) (by decide)
    (by decide)).1

/-- Claim C10: registering for a paid event (price > 0) creates the ticket with
the literal status REGISTERED, no nonce and no jwtToken, even when the capacity
count has just determined WAITLISTED (second conjunct); and a ticket without a
nonce is never the result of the validator's nonce lookup, so no credential
for it can ever be accepted. -/
theorem paid_registration_registered_no_credential
    (events : List Event) (db : Ledger) (uid eid : String) (invTok : Option String)
    (ev : Event) (tid : String) (iat : Nat) (fn : String)
    (h1 : findEvent events eid = some ev)
    (h2 : ¬(ev.isPrivate = true ∧ ev.inviteToken ≠ invTok))
    (h3 : findTicketByUserEvent db uid eid = none)
    (h4 : 0 < ev.price)
    (h5 : ev.capacity ≤ countActive db eid) :
    register events db uid eid invTok tid iat fn =
      (.paid ⟨tid, uid, eid, .REGISTERED, none, none, none⟩ ev.price,
        db ++ [⟨tid, uid, eid, .REGISTERED, none, none, none⟩]) ∧
    (if countActive db eid ≥ ev.capacity then TicketStatus.WAITLISTED
      else TicketStatus.REGISTERED) = .WAITLISTED ∧
    (∀ n, findByNonce (db ++ [⟨tid, uid, eid, .REGISTERED, none, none, none⟩]) n ≠
      some ⟨tid, uid, eid, .REGISTERED, none, none, none⟩) := by
  refine ⟨?_, ?_, ?_⟩
  · simp [register, h1, h2, h3, h4]
  · simp [h5]
  · intro n hcon
    have hn := findByNonce_nonce hcon
    simp at hn

/-- Witness for claim C10: a full paid event (capacity 0, price 5) still gets
a REGISTERED, credential-less ticket. -/
theorem paid_registration_registered_no_credential_witness :
    register [(⟨"e1", 5, 0, false, none⟩ : Event)] [] "u1" "e1" none "t9" 0 "nZ" =
      (.paid ⟨"t9", "u1", "e1", .REGISTERED, none, none, none⟩ 5,
        [⟨"t9", "u1", "e1", .REGISTERED, none, none, none⟩]) :=
  (paid_registration_registered_no_credential
    [(⟨"e1", 5, 0, false, none⟩ : Event)] [] "u1" "e1" none
    ⟨"e1", 5, 0, false, none⟩
    "t9" 0 "nZ" (by decide) (by decide) (by decide) (by decide) (by decide)).1
